import Mathlib

/-!
# Verification of the pipcs configuration framework

A shallow embedding of the repository's two Python modules:

* `src/pipcs/pipcs.py` — the core configuration model (`Config`, `Choices`,
  `Condition`, `Comparison`, `required`, `read_config`), embedded below as
  computable Lean functions over association lists that mirror Python dicts.
* `src/config.py` — the standalone auto-vivifying prototype registry,
  embedded with a `proto` prefix.

Python dicts are modeled as association lists `List (String × Val)` whose
update (`setEntry`) keeps the position of an existing key and appends new
keys, exactly like CPython insertion-ordered dicts.  Exceptions are modeled
with `Except PyErr`.  The bookkeeping keys that the source stores inside the
mapping itself (`"_name"`, `"__annotations__"`) are kept in-band, as in the
source.
-/

set_option maxHeartbeats 1000000

namespace Pipcs

/-- The comparison operator of a `Comparable` rich-comparison method
(`__eq__`, `__ne__`, `__lt__`, `__le__`, `__gt__`, `__ge__`). -/
inductive CmpOp where
  | eq | ne | lt | le | gt | ge
deriving DecidableEq, Repr

mutual

/-- A Python value as far as the configuration engine distinguishes them:
plain scalars, Python `None`, the `required` sentinel class, a `Choices`
instance (its `choices` list and its `data`, which is the default), a
`Condition` instance (its `data` and its `comp` predicate), a nested
`Config` node, or a plain `dict`.  `Config` and `dict` carry their entries
as insertion-ordered association lists. -/
inductive Val where
  | int (n : Int)
  | str (s : String)
  | bool (b : Bool)
  | none
  | required
  | choices (cs : List Val) (data : Val)
  | condition (data : Val) (comp : Comp)
  | config (entries : List (String × Val))
  | dict (entries : List (String × Val))

/-- A `Comparison` value.  The source stores an opaque closure; every
closure the program ever constructs is either one of the six
`Comparable` rich comparisons (which capture the `Comparable`'s stamped
field name `_name`, its own `data`, and the literal operand) or a
combinator built by `__and__`, `__or__`, `__invert__`.  The embedding
represents that closure language as a first-order tree; `add_config`'s
re-stamping loop (`v._name = k`) is reflected by constructing `base`
nodes with the field key the `Comparable` ends up stored under. -/
inductive Comp where
  | base (name : String) (data : Val) (op : CmpOp) (other : Val)
  | and (p q : Comp)
  | or (p q : Comp)
  | not (p : Comp)

end

/-- The exceptions the embedded code can raise. -/
inductive PyErr where
  | keyError (key : String)
  | attributeError (attr : String)
  | invalidChoiceError (msg : String)
  | requiredError (msg : String)
  | typeError (msg : String)
  | valueError (msg : String)
deriving DecidableEq, Repr

/-- Dict entries: insertion-ordered key/value pairs. -/
abbrev Entries := List (String × Val)

/-- First value stored at a key, like `dict.__getitem__` minus the raise. -/
def lookupE : Entries → String → Option Val
  | [], _ => Option.none
  | (k1, v1) :: rest, k => if k1 = k then some v1 else lookupE rest k

/-- `d[k] = v` on an insertion-ordered dict: an existing key keeps its
position, a new key is appended. -/
def setEntry : Entries → String → Val → Entries
  | [], k, v => [(k, v)]
  | (k1, v1) :: rest, k, v =>
      if k1 = k then (k1, v) :: rest else (k1, v1) :: setEntry rest k v

/-- Left fold of `setEntry`, i.e. inserting a list of pairs in order. -/
def setEntries (base : Entries) (l : Entries) : Entries :=
  l.foldl (fun acc kv => setEntry acc kv.1 kv.2) base

/-- The identity check `value is required` against the sentinel class. -/
def isRequired : Val → Bool
  | .required => true
  | _ => false

/-- `isinstance(v, Comparable)`: in the source `Choices` is the only
class ever instantiated that derives from `Comparable` (`Condition` does
not). -/
def isComparable : Val → Bool
  | .choices _ _ => true
  | _ => false

/-- Python truthiness for the values the engine stores.  The `required`
class object, `Choices` and `Condition` instances are plain objects and
hence truthy; containers are truthy when non-empty. -/
def pyTruthy : Val → Bool
  | .int n => n != 0
  | .str s => !s.isEmpty
  | .bool b => b
  | .none => false
  | .required => true
  | .choices _ _ => true
  | .condition _ _ => true
  | .config e => !e.isEmpty
  | .dict e => !e.isEmpty

/-- Python treats `bool` as an `int` subtype in arithmetic comparisons. -/
def toIntIfBool : Val → Option Int
  | .int n => some n
  | .bool b => some (if b then (1 : Int) else 0)
  | _ => Option.none

/-- Truth value of `a == b` between non-`Comparable` operands.  Numbers
compare across `int`/`bool`; distinct plain objects (the `required`
class, `Condition` instances) fall back to identity, which the
embedding conservatively models as `false` for structurally distinct
values and, for `Condition`/container operands, as `false` outright —
no claim compares those, and every comparison the embedded trees
actually perform has scalar or `required` operands. -/
def pyEqB (a b : Val) : Bool :=
  match toIntIfBool a, toIntIfBool b with
  | some x, some y => x == y
  | _, _ =>
    match a, b with
    | .str s, .str t => s == t
    | .required, .required => true
    | .none, .none => true
    | _, _ => false

/-- Truth value of `a == b` with `Comparable` reflection: a `Comparable`
operand makes the rich comparison return a `Comparison` object, which is
truthy. -/
def pyEqTruthy (a b : Val) : Bool :=
  if isComparable a || isComparable b then true else pyEqB a b

/-- Python `v in cs` for a list `cs`: `any(e == v for e in cs)` with the
element on the left of `==` (reflected to `v` when the element's
comparison is not implemented). -/
def pyContains (cs : List Val) (v : Val) : Bool :=
  cs.any (fun e => pyEqTruthy e v)

/-- `repr` of the values that can appear in a `Choices` list, used to
format the `InvalidChoiceError` message.  Object reprs that no claim
exercises are abbreviated placeholders. -/
def pyReprV : Val → String
  | .int n => toString n
  | .str s => "\x27" ++ s ++ "\x27"
  | .bool b => if b then "True" else "False"
  | .none => "None"
  | .required => "<class required>"
  | .choices _ _ => "<Choices>"
  | .condition _ _ => "<Condition>"
  | .config _ => "<Config>"
  | .dict _ => "<dict>"

/-- `str` of a value (as an f-string renders it). -/
def pyStrV : Val → String
  | .str s => s
  | v => pyReprV v

/-- `str` of a list (Python renders the elements with `repr`). -/
def pyReprList (cs : List Val) : String :=
  "[" ++ String.intercalate ", " (cs.map pyReprV) ++ "]"

/-- One rich comparison `a op b`.  A `Comparable` operand short-circuits
to a truthy `Comparison` object (all six operators are overloaded on
`Comparable`, directly or reflected).  `==`/`!=` never raise; the
ordered operators raise `TypeError` between unordered types. -/
def pyCompare (a : Val) (op : CmpOp) (b : Val) : Except PyErr Bool :=
  if isComparable a || isComparable b then .ok true
  else
    match op with
    | .eq => .ok (pyEqB a b)
    | .ne => .ok (!pyEqB a b)
    | _ =>
      match toIntIfBool a, toIntIfBool b with
      | some x, some y =>
          .ok (match op with
               | .lt => decide (x < y)
               | .le => decide (x ≤ y)
               | .gt => decide (y < x)
               | .ge => decide (y ≤ x)
               | _ => false)
      | _, _ =>
        match a, b with
        | .str s, .str t =>
            .ok (match op with
                 | .lt => decide (s < t)
                 | .le => decide (s ≤ t)
                 | .gt => decide (t < s)
                 | .ge => decide (t ≤ s)
                 | _ => false)
        | _, _ => .error (.typeError "unorderable types")

/-- `Config.get_value(key)` without the `check` flag:
`dict.__getitem__`, raising `KeyError` on a missing key. -/
def getValue (self : Entries) (k : String) : Except PyErr Val :=
  match lookupE self k with
  | some v => .ok v
  | Option.none => .error (.keyError k)

/-- Evaluating a `Comparison` closure against a configuration node.

A `base` node replays `Comparable._get_value`: fetch the current value
stored under the captured `_name`; if that value is still a `Comparable`
(no override replaced the placeholder) use the `Comparable`'s own
captured `data` instead; then perform the rich comparison with the
captured operand.  `__and__`/`__or__` short-circuit exactly like the
Python `and`/`or` in their lambdas; `__invert__` negates. -/
def Comp.eval (cfg : Entries) : Comp → Except PyErr Bool
  | .base name data op other => do
      let value ← getValue cfg name
      let lhs := if isComparable value then data else value
      pyCompare lhs op other
  | .and p q => do
      let a ← p.eval cfg
      if a then q.eval cfg else pure false
  | .or p q => do
      let a ← p.eval cfg
      if a then pure true else q.eval cfg
  | .not p => do
      let a ← p.eval cfg
      pure (!a)

mutual

/-- `Config.check_value(key, value)`: a nested `Config` validates itself
fully; a `Choices` whose `data` is still `required` raises
`RequiredError`; a `Condition` evaluates its predicate against the
enclosing node and raises `RequiredError` only when the predicate holds
and its `data` is `required`; the bare `required` sentinel raises
`RequiredError`; anything else passes. -/
def checkValue (self : Entries) (key : String) (v : Val) : Except PyErr Unit :=
  match v with
  | .config entries => checkItems entries entries
  | .choices _ data =>
      if isRequired data then .error (.requiredError (key ++ " is required!"))
      else .ok ()
  | .condition data comp => do
      let b ← comp.eval self
      if b then
        if isRequired data then .error (.requiredError (key ++ " is required!"))
        else .ok ()
      else .ok ()
  | .required => .error (.requiredError (key ++ " is required!"))
  | _ => .ok ()
termination_by structural v

/-- The loop body of `Config.check_config`: for every entry, recurse on
nested `Config` values (`v.check_config()`, which is exactly
`checkValue`'s `Config` branch) and apply `check_value` to everything
else.  Note the loop visits the in-band bookkeeping entries (`"_name"`,
`"__annotations__"`) too, which pass as plain values, as in the source. -/
def checkItems (self : Entries) : Entries → Except PyErr Unit
  | [] => .ok ()
  | (k, v) :: rest => do
      checkValue self k v
      checkItems self rest
termination_by structural l => l

end

/-- `Config.check_config()`. -/
def checkConfig (self : Entries) : Except PyErr Unit :=
  checkItems self self

/-- `Config.get_value(key, check)`. -/
def getValueCheck (self : Entries) (k : String) (check : Bool) : Except PyErr Val := do
  let v ← getValue self k
  if check then checkValue self k v else pure ()
  pure v

/-- Attribute access `node.key` through `Config.__getattr__`: route
through `get_value` and turn `KeyError` into `AttributeError`.  (Real
attribute lookup first finds the class's own methods; the claims only
access keys that are not `Config`/`dict` method names, where this model
is exact — see `configClassAttrs`.) -/
def getattrE (self : Entries) (k : String) : Except PyErr Val :=
  match getValue self k with
  | .ok v => .ok v
  | .error _ => .error (.attributeError k)

/-- The attribute names every `Config` instance owns through its class
(its own methods plus the inherited `dict` interface).  `hasattr(self, k)`
is true for these even when `k` is not a key of the underlying dict. -/
def configClassAttrs : List String :=
  ["check_config", "check_value", "get_value", "to_dict", "add_config",
   "add", "update_config", "_update_comparables",
   "items", "keys", "values", "get", "update", "pop", "popitem",
   "clear", "copy", "setdefault", "fromkeys"]

/-- `hasattr(self, k)` on a `Config` node: a dict key (reached through
`__getattr__`/`get_value`) or one of the class's own attributes. -/
def hasattrE (self : Entries) (k : String) : Bool :=
  (lookupE self k).isSome || k ∈ configClassAttrs

mutual

/-- The contribution of one entry `(k, v)` to `Config.to_dict(check)`:
`none` when the entry is omitted (a `Condition` whose predicate fails),
otherwise the flattened key/value pair.  The nested `v.to_dict(check)`
call on a `Config` value is written out as its body (the optional
`check_config` run followed by the nested loop). -/
def toDictVal (check : Bool) (self : Entries) (k : String) (v : Val) :
    Except PyErr (Option (String × Val)) :=
  match v with
  | .config entries => do
      if check then checkConfig entries else pure ()
      let d ← toDictLoop check entries entries
      pure (some (k, .dict d))
  | .choices _ data => pure (some (k, data))
  | .condition data comp => do
      let b ← comp.eval self
      if b then pure (some (k, data)) else pure Option.none
  | .int n => pure (some (k, .int n))
  | .str s => pure (some (k, .str s))
  | .bool b => pure (some (k, .bool b))
  | .none => pure (some (k, .none))
  | .required => pure (some (k, .required))
  | .dict e => pure (some (k, .dict e))
termination_by structural v

/-- The loop of `Config.to_dict(check)` (see `toDict`): bookkeeping
keys are skipped, every other entry contributes through `toDictVal`. -/
def toDictLoop (check : Bool) (self : Entries) : Entries → Except PyErr Entries
  | [] => .ok []
  | (k, v) :: rest =>
      if k = "_name" ∨ k = "__annotations__" then toDictLoop check self rest
      else do
        let hd ← toDictVal check self k v
        let restD ← toDictLoop check self rest
        match hd with
        | some kv => pure (kv :: restD)
        | Option.none => pure restD
termination_by structural l => l

end

/-- `Config.to_dict(check)`: optionally run `check_config` first, then
flatten.  Bookkeeping keys are skipped; nested `Config`s recurse (the
`check` flag is passed down, as in the source); a `Comparable`
(`Choices`) contributes its `data`; a `Condition` contributes its `data`
only when its predicate holds against the enclosing node; anything else
is copied through. -/
def toDict (check : Bool) (self : Entries) : Except PyErr Entries := do
  if check then checkConfig self else pure ()
  toDictLoop check self self

/-- The nested-`Config` recursion inside `toDictLoop` is exactly a
nested `to_dict` call. -/
theorem toDictLoop_nested_is_toDict (check : Bool) (entries : Entries) :
    (do
      if check then checkConfig entries else pure ()
      toDictLoop check entries entries) = toDict check entries := by
  rw [toDict]

/-- The attribute access `v.data`: `Choices` and `Condition` instances
carry a `data` attribute, nothing else the engine stores does. -/
def valData : Val → Except PyErr Val
  | .choices _ d => .ok d
  | .condition d _ => .ok d
  | _ => .error (.attributeError "data")

/-- One iteration of `Config._update_comparables` at a key whose
ORIGINAL value `v` is not a `Config`: when the receiver's current value
at `k` is still a `Comparable`, overwrite it with `v.data`. -/
def updCStepPlain (nd : Entries) (k : String) (v : Val) : Except PyErr Entries :=
  match lookupE nd k with
  | Option.none => .error (.keyError k)
  | some cur =>
      if isComparable cur then
        match valData v with
        | .ok d => .ok (setEntry nd k d)
        | .error e => .error e
      else .ok nd

mutual

/-- One iteration of `Config._update_comparables(other)` at key `k`
with original value `v` (see `updateComparables`): the
`isinstance(v, Config)` branch recurses, every other value goes through
`updCStepPlain`. -/
def updCStep (nd : Entries) (k : String) (v : Val) : Except PyErr Entries :=
  match v with
  | .config ve =>
      match lookupE nd k with
      | some (.config ne) => do
          let ne2 ← updateComparables ne ve
          pure (setEntry nd k (.config ne2))
      | some _ => .error (.attributeError "_update_comparables")
      | Option.none => .error (.keyError k)
  | .int n => updCStepPlain nd k (.int n)
  | .str s => updCStepPlain nd k (.str s)
  | .bool b => updCStepPlain nd k (.bool b)
  | .none => updCStepPlain nd k .none
  | .required => updCStepPlain nd k .required
  | .choices cs d => updCStepPlain nd k (.choices cs d)
  | .condition d c => updCStepPlain nd k (.condition d c)
  | .dict e => updCStepPlain nd k (.dict e)
termination_by structural v

/-- `Config._update_comparables(other)`: here `nd` is the receiver (the
freshly merged `newdict`) and the list being iterated is `other`'s
entries (the ORIGINAL, pre-merge node).  For every original entry: if
the original value is a `Config`, recurse into the receiver's value at
that key (`AttributeError` when that value is not a `Config`, which has
no `_update_comparables`; `KeyError` when the key is absent); otherwise,
if the receiver's CURRENT value at the key is still a `Comparable`,
overwrite it with the original value's `data` (`AttributeError` when
the original value has no `data` attribute). -/
def updateComparables (nd : Entries) : Entries → Except PyErr Entries
  | [] => .ok nd
  | (k, v) :: rest => do
      let nd1 ← updCStep nd k v
      updateComparables nd1 rest
termination_by structural l => l

end

mutual

/-- The merge loop of `Config.update_config`.  For each incoming entry
`(k, v)`: first `newdict[k] = v`; then, when `hasattr(self, k)` —
which is true for a stored key or for one of the class's own attribute
names (`self[k]` then raises `KeyError` for the latter) — dispatch on
the receiver's existing value: a nested `Config` merges recursively
with `v` (whose `.items()` requires `v` to be a `Config` or mapping); a
plain mapping takes the shallow union; a `Choices` checks `v` against
its choice list and raises `InvalidChoiceError` on a miss (keeping the
incoming `v` otherwise); a `Condition` is rebuilt around the incoming
payload with the SAME original predicate; anything else keeps the
incoming value. -/
def updLoop (self nd : Entries) : Entries → Except PyErr Entries
  | [] => .ok nd
  | (k, v) :: rest => do
      let nd1 ← updStep self nd k v
      updLoop self nd1 rest
termination_by structural l => l

/-- One iteration of the `update_config` merge loop at incoming entry
`(k, v)` (see `updLoop`).  The nested `self[k].update_config(v)` call
is written out as its body (`updLoop` then `_update_comparables`);
`updateConfig` below packages the same composition. -/
def updStep (self nd : Entries) (k : String) (v : Val) : Except PyErr Entries :=
  let nd0 := setEntry nd k v
  if hasattrE self k then
    match lookupE self k with
    | Option.none => .error (.keyError k)
    | some (.config se) =>
        match v with
        | .config oe => do
            let m1 ← updLoop se se oe
            let m ← updateComparables m1 se
            pure (setEntry nd0 k (.config m))
        | .dict oe => do
            let m1 ← updLoop se se oe
            let m ← updateComparables m1 se
            pure (setEntry nd0 k (.config m))
        | _ => .error (.attributeError "items")
    | some (.dict de) =>
        match v with
        | .dict oe => pure (setEntry nd0 k (.dict (setEntries de oe)))
        | .config oe => pure (setEntry nd0 k (.dict (setEntries de oe)))
        | _ => .error (.typeError "mapping unpacking")
    | some (.choices cs _) =>
        if pyContains cs v then pure nd0
        else .error (.invalidChoiceError
          (pyStrV v ++ " is not valid for " ++ k ++ ", valid choices: "
            ++ pyReprList cs))
    | some (.condition _ comp) =>
        pure (setEntry nd0 k (.condition v comp))
    | some _ => pure nd0
  else pure nd0
termination_by structural v

end

/-- `Config.update_config(other)`: start from a copy of the receiver's
entries (`Config(self)`), run the keyed merge loop over `other`'s
entries, then reconcile with `_update_comparables(self)` against the
original receiver. -/
def updateConfig (self other : Entries) : Except PyErr Entries := do
  let nd ← updLoop self self other
  updateComparables nd self

/-- The nested-`Config` branch of `updStep` is exactly a nested
`update_config` call. -/
theorem updStep_nested_is_updateConfig (se oe : Entries) :
    (do
      let m1 ← updLoop se se oe
      updateComparables m1 se) = updateConfig se oe := by
  rw [updateConfig]

/-- A decorated class body, as `add_config` consumes it:
`members` are the class-level assignments in body order (the
`vars(config_class)` view, dunder names excluded) and `annots` is the
class's own `__annotations__` mapping in body order (field name → type
object, modeled as a `Val.str` tag; `[]` when the body annotated
nothing, in which case the class has no `__annotations__` attribute on
the Python versions the source targets). -/
structure ClsDef where
  members : Entries
  annots : Entries

/-- `dataclasses` rejects a field default whose type is `list`, `dict`
or `set`; of the embedded values, `dict`s and `Config` instances (a
`dict` subclass) are the unhashable ones. -/
def mutableDefault : Val → Bool
  | .dict _ => true
  | .config _ => true
  | _ => false

/-- The mutable-default scan `@dataclass` performs over the fields, in
field order, before `__init__` is ever built. -/
def dcCheckMutable (members : Entries) : Entries → Except PyErr Unit
  | [] => .ok ()
  | (a, _) :: rest =>
      match lookupE members a with
      | some v =>
          if mutableDefault v then
            .error (.valueError ("mutable default for field " ++ a
              ++ " is not allowed"))
          else dcCheckMutable members rest
      | Option.none => dcCheckMutable members rest

/-- Collect the dataclass fields, in annotation order, each with its
class-attribute default.  A field with no default makes instantiating
the dataclass raise `TypeError` (either "non-default argument follows
default argument" at decoration or a missing argument at the zero-arg
call). -/
def dcFields (members : Entries) : Entries → Except PyErr Entries
  | [] => .ok []
  | (a, _) :: rest =>
      match lookupE members a with
      | some v => do
          let fs ← dcFields members rest
          pure ((a, v) :: fs)
      | Option.none => .error (.typeError (a ++ " has no default value"))

/-- `dataclass(config_class)()` given the effective `__annotations__`
and the class-attribute defaults: the instance's dict entries are
exactly the annotated fields with their defaults. -/
def dataclassFields (annots members : Entries) : Except PyErr Entries := do
  dcCheckMutable members annots
  dcFields members annots

/-- Wrapping the dataclass instance as `Config(datacls)`: the node's
entries are the remembered section name first (stored in-band under
`"_name"`), then the fields, then the class's `__annotations__` dict
(stored in-band, because `datacls.__annotations__ = ...` routes through
`Config.__setattr__`). -/
def buildNode (name : String) (fields : Entries) (annots : Entries) : Entries :=
  setEntry (setEntries (setEntry [] "_name" (.str name)) fields)
    "__annotations__" (.dict annots)

/-- The fresh-registration branch of `Config.add_config` (the section
name is not yet used, or its stored value is falsy): build the child
node from the class's own annotated fields and attach it.  No
validation runs on this path — the `check` flag is never consulted.  On
the Python versions the source targets, a class body with no
annotations leaves the class without `__annotations__`, so the
assignment `datacls.__annotations__ = config_class.__annotations__`
raises `AttributeError`. -/
def freshAdd (root : Entries) (name : String) (cls : ClsDef) :
    Except PyErr Entries :=
  if cls.annots.isEmpty then .error (.attributeError "__annotations__")
  else do
    let fields ← dataclassFields cls.annots cls.members
    pure (setEntry root name (.config (buildNode name fields cls.annots)))

/-- `Config.add_config(cls, name, check)`.

Override branch (`self.get(name)` truthy): read the parent section's
stored `__annotations__`; union them with the new class's own
annotations (child wins); keep, in body order, exactly the class
members that appear in that union; build the transient node from those
fields; deep-merge parent and transient with `update_config`; when
`check` is set, run full validation on the merged node; only then
replace the section.  A failure anywhere before the final `self[name] =
merged_config` assignment leaves the receiver untouched, which the pure
embedding reflects by returning the new root only in the `.ok` case.

Fresh branch otherwise: `freshAdd`, which never validates.

The trailing loop that re-stamps each stored `Comparable`'s `_name` to
its own key mutates only the `Comparable` objects; the embedding bakes
those names into `Comp.base` nodes up front, so it is a no-op here. -/
def addConfig (root : Entries) (name : String) (cls : ClsDef) (check : Bool) :
    Except PyErr Entries :=
  match lookupE root name with
  | some pv =>
      if pyTruthy pv then
        match pv with
        | .config pe => do
            let pAnn ←
              match lookupE pe "__annotations__" with
              | some (.dict a) => .ok a
              | some (.config a) => .ok a
              | some _ => .error (.typeError "mapping unpacking")
              | Option.none => .error (.attributeError "__annotations__")
            let allAnn := if cls.annots.isEmpty then pAnn
                          else setEntries pAnn cls.annots
            let annots := cls.members.filterMap (fun m =>
              match lookupE allAnn m.1 with
              | some ty => some (m.1, ty)
              | Option.none => Option.none)
            let fields ← dataclassFields annots cls.members
            let merged ← updateConfig pe (buildNode name fields annots)
            if check then checkConfig merged else pure ()
            pure (setEntry root name (.config merged))
        | _ => .error (.attributeError "__annotations__")
      else freshAdd root name cls
  | Option.none => freshAdd root name cls

/-- A freshly constructed root node, `Config()`: its only entry is the
in-band `"_name"` set to `None`. -/
def emptyRoot : Entries := [("_name", .none)]

/-- `Choices.__init__(choices, default)`: a concrete (non-`required`)
default must be a member of the choice list, else construction raises
`InvalidChoiceError('Default value is not in choices')`; the instance
stores the choice list and keeps the default as its `data`. -/
def mkChoices (choices : List Val) (default : Val) : Except PyErr Val :=
  if isRequired default then .ok (.choices choices default)
  else if pyContains choices default then .ok (.choices choices default)
  else .error (.invalidChoiceError "Default value is not in choices")

/-- What `read_config(config_file, config_name)` returns: the whole
module namespace, or one attribute of it. -/
inductive ReadResult where
  | module (ns : Entries)
  | attr (v : Val)

/-- `read_config(config_file, config_name)` with the file execution
abstracted: `ns` stands for the namespace of top-level bindings that
executing the file's code in the fresh module produced (the
`exec(code, config.__dict__)` step, which is outside the embedding).
With no `config_name` the whole module is returned; with one, `getattr`
returns that binding or raises `AttributeError` when absent. -/
def readConfig (ns : Entries) (configName : Option String) :
    Except PyErr ReadResult :=
  match configName with
  | Option.none => .ok (.module ns)
  | some n =>
      match lookupE ns n with
      | some v => .ok (.attr v)
      | Option.none => .error (.attributeError n)

/-! ## The standalone prototype registry (`src/config.py`)

Its `Config` is a `defaultdict(Config)`: looking up a missing key
auto-vivifies an empty child node, and `__getattr__` routes through that
lookup, so `hasattr(self, k)` is true for EVERY `k` — the vivifying
lookup never raises.  Its nodes carry no `_name`/`__annotations__`
bookkeeping entries. -/

/-- `self[k]` on the prototype's `defaultdict(Config)`: a missing key
vivifies an empty child node.  (The vivified entry is added to `self`,
but `newdict = dict(self)` was copied before the loop, so the pure
model that recomputes the default is observationally exact.) -/
def protoSelfItem (self : Entries) (k : String) : Val :=
  (lookupE self k).getD (.config [])

mutual

/-- The prototype's `Config.update(self, other)`: iterate `other.items()`
(requiring `other` to be a node or mapping) over a copy of `self`. -/
def protoUpdate (self : Entries) (other : Val) : Except PyErr Entries :=
  match other with
  | .config oe => protoLoop self self oe
  | .dict oe => protoLoop self self oe
  | _ => .error (.attributeError "items")
termination_by structural other

/-- The loop of the prototype's `update`.  `hasattr(self, k)` is always
true (the auto-vivifying `__getattr__` never raises), so the
`not hasattr` branch that would copy an incoming value as-is is
unreachable; the code always dispatches on `self[k]`, which for an
absent key is a vivified empty node, sending the incoming value into a
recursive `update` call. -/
def protoLoop (self nd : Entries) : Entries → Except PyErr Entries
  | [] => .ok nd
  | (k, v) :: rest => do
      let cur := protoSelfItem self k
      let nd1 ←
        match cur with
        | .config ce => do
            let m ← protoUpdate ce v
            pure (setEntry nd k (.config m))
        | .dict de =>
            match v with
            | .dict ve => pure (setEntry nd k (.dict (setEntries de ve)))
            | .config ve => pure (setEntry nd k (.dict (setEntries de ve)))
            | _ => .error (.typeError "unsupported operand types for |")
        | _ => pure (setEntry nd k v)
      protoLoop self nd1 rest
termination_by structural l => l

end

/-- The prototype's `Config.register(name)` applied to a class body:
when `self.get(name)` is falsy the section is built (a dataclass
instance whose dict entries are the annotated fields with their
defaults — `src/config.py` supplies its mutable defaults through
`field(default_factory=...)`, so the embedding stores the produced
value directly and skips the mutable-default scan) and attached;
otherwise registration fails with `AttributeError` naming the clash
(the Python message also names the stored instance's class, which the
embedding does not track). -/
def protoRegister (self : Entries) (name : String) (fields : Entries) :
    Except PyErr Entries :=
  match lookupE self name with
  | some v =>
      if pyTruthy v then
        .error (.attributeError ("\x22" ++ name ++ "\x22 is already registered"))
      else .ok (setEntry self name (.config fields))
  | Option.none => .ok (setEntry self name (.config fields))

/-! ## Dictionary lemmas -/

theorem lookupE_setEntry_self (l : Entries) (k : String) (v : Val) :
    lookupE (setEntry l k v) k = some v := by
  induction l with
  | nil => simp [setEntry, lookupE]
  | cons hd tl ih =>
      by_cases h : hd.1 = k <;> simp [setEntry, lookupE, h, ih]

theorem lookupE_setEntry_ne (l : Entries) {k k1 : String} (h : k1 ≠ k) (v : Val) :
    lookupE (setEntry l k v) k1 = lookupE l k1 := by
  induction l with
  | nil => simp [setEntry, lookupE, Ne.symm h]
  | cons hd tl ih =>
      obtain ⟨k0, v0⟩ := hd
      by_cases h1 : k0 = k
      · subst h1
        simp [setEntry, lookupE, Ne.symm h]
      · by_cases h2 : k0 = k1 <;>
          simp [setEntry, lookupE, h, h1, h2, Ne.symm h, ih]

theorem mem_of_lookupE_some {l : Entries} {k : String} {v : Val}
    (h : lookupE l k = some v) : (k, v) ∈ l := by
  induction l with
  | nil => simp [lookupE] at h
  | cons hd tl ih =>
      obtain ⟨k0, v0⟩ := hd
      by_cases h1 : k0 = k
      · subst h1
        simp [lookupE] at h
        subst h
        exact List.mem_cons_self _ _
      · simp [lookupE, h1] at h
        exact List.mem_cons_of_mem _ (ih h)

theorem not_mem_of_lookupE_none {l : Entries} {k : String}
    (h : lookupE l k = Option.none) : k ∉ l.map Prod.fst := by
  induction l with
  | nil => simp
  | cons hd tl ih =>
      obtain ⟨k0, v0⟩ := hd
      by_cases h1 : k0 = k
      · simp [lookupE, h1] at h
      · simp [lookupE, h1] at h
        intro hmem
        simp at hmem
        rcases hmem with h2 | ⟨x, hx⟩
        · exact h1 h2.symm
        · exact ih h (List.mem_map_of_mem Prod.fst hx)

theorem exceptBindOk {α β : Type} {e : Except PyErr α} {f : α → Except PyErr β}
    {b : β} (h : (e >>= f) = .ok b) : ∃ a, e = .ok a ∧ f a = .ok b := by
  cases e with
  | error ε => simp [Bind.bind, Except.bind] at h
  | ok a => exact ⟨a, rfl, by simpa [Bind.bind, Except.bind] using h⟩

/-! ## Merge-loop lemmas -/

theorem updStep_no_attr {self nd : Entries} {k : String} {v : Val}
    (h1 : lookupE self k = Option.none) (h2 : k ∉ configClassAttrs) :
    updStep self nd k v = .ok (setEntry nd k v) := by
  rw [updStep]
  simp [hasattrE, h1, h2, pure, Except.pure]

theorem updStep_attr_missing {self nd : Entries} {k : String} {v : Val}
    (h1 : lookupE self k = Option.none) (h2 : k ∈ configClassAttrs) :
    updStep self nd k v = .error (.keyError k) := by
  rw [updStep]
  simp [hasattrE, h1, h2]

theorem updStep_choices {self nd : Entries} {k : String} {v : Val}
    {cs : List Val} {d : Val} (h1 : lookupE self k = some (.choices cs d)) :
    updStep self nd k v =
      if pyContains cs v then .ok (setEntry nd k v)
      else .error (.invalidChoiceError
        (pyStrV v ++ " is not valid for " ++ k ++ ", valid choices: "
          ++ pyReprList cs)) := by
  rw [updStep]
  simp [hasattrE, h1, pure, Except.pure]

theorem updStep_ok_shape {self nd : Entries} {k : String} {v : Val}
    {nd1 : Entries} (h : updStep self nd k v = .ok nd1) :
    ∃ w, nd1 = setEntry nd k w ∨ nd1 = setEntry (setEntry nd k v) k w := by
  rw [updStep] at h
  by_cases ha : hasattrE self k
  · rw [if_pos ha] at h
    cases hs : lookupE self k with
    | none => rw [hs] at h; exact absurd h (by simp)
    | some sv =>
      rw [hs] at h
      cases sv with
      | config se =>
          cases v with
          | config oe =>
              obtain ⟨m1, _, h2⟩ := exceptBindOk h
              obtain ⟨m, _, hm⟩ := exceptBindOk h2
              simp only [pure, Except.pure, Except.ok.injEq] at hm
              exact ⟨.config m, Or.inr hm.symm⟩
          | dict oe =>
              obtain ⟨m1, _, h2⟩ := exceptBindOk h
              obtain ⟨m, _, hm⟩ := exceptBindOk h2
              simp only [pure, Except.pure, Except.ok.injEq] at hm
              exact ⟨.config m, Or.inr hm.symm⟩
          | int n => exact absurd h (by simp)
          | str s => exact absurd h (by simp)
          | bool b => exact absurd h (by simp)
          | none => exact absurd h (by simp)
          | required => exact absurd h (by simp)
          | choices cs d => exact absurd h (by simp)
          | condition d c => exact absurd h (by simp)
      | dict de =>
          cases v with
          | config oe =>
              simp only [pure, Except.pure, Except.ok.injEq] at h
              exact ⟨.dict (setEntries de oe), Or.inr h.symm⟩
          | dict oe =>
              simp only [pure, Except.pure, Except.ok.injEq] at h
              exact ⟨.dict (setEntries de oe), Or.inr h.symm⟩
          | int n => exact absurd h (by simp)
          | str s => exact absurd h (by simp)
          | bool b => exact absurd h (by simp)
          | none => exact absurd h (by simp)
          | required => exact absurd h (by simp)
          | choices cs d => exact absurd h (by simp)
          | condition d c => exact absurd h (by simp)
      | choices cs2 d2 =>
          have h2 : (if pyContains cs2 v = true
              then (pure (setEntry nd k v) : Except PyErr Entries)
              else .error (.invalidChoiceError
                (pyStrV v ++ " is not valid for " ++ k ++ ", valid choices: "
                  ++ pyReprList cs2))) = .ok nd1 := h
          by_cases hc : pyContains cs2 v = true
          · rw [if_pos hc] at h2
            simp only [pure, Except.pure, Except.ok.injEq] at h2
            exact ⟨v, Or.inl h2.symm⟩
          · rw [if_neg hc] at h2
            exact absurd h2 (by simp)
      | condition d c =>
          simp only [pure, Except.pure, Except.ok.injEq] at h
          exact ⟨.condition v c, Or.inr h.symm⟩
      | int n =>
          simp only [pure, Except.pure, Except.ok.injEq] at h
          exact ⟨v, Or.inl h.symm⟩
      | str s =>
          simp only [pure, Except.pure, Except.ok.injEq] at h
          exact ⟨v, Or.inl h.symm⟩
      | bool b =>
          simp only [pure, Except.pure, Except.ok.injEq] at h
          exact ⟨v, Or.inl h.symm⟩
      | none =>
          simp only [pure, Except.pure, Except.ok.injEq] at h
          exact ⟨v, Or.inl h.symm⟩
      | required =>
          simp only [pure, Except.pure, Except.ok.injEq] at h
          exact ⟨v, Or.inl h.symm⟩
  · rw [if_neg ha] at h
    simp only [pure, Except.pure, Except.ok.injEq] at h
    exact ⟨v, Or.inl h.symm⟩

theorem updStep_ok_lookup_ne {self nd : Entries} {k : String} {v : Val}
    {nd1 : Entries} {k1 : String} (h : updStep self nd k v = .ok nd1)
    (hne : k1 ≠ k) : lookupE nd1 k1 = lookupE nd k1 := by
  obtain ⟨w, hc | hc⟩ := updStep_ok_shape h <;> subst hc <;>
    simp [lookupE_setEntry_ne _ hne]

theorem updLoop_ok_unvisited {self : Entries} {l : Entries} :
    ∀ {nd nd2 : Entries} {k : String}, updLoop self nd l = .ok nd2 →
      k ∉ l.map Prod.fst → lookupE nd2 k = lookupE nd k := by
  induction l with
  | nil =>
      intro nd nd2 k h _
      rw [updLoop] at h
      injection h with h
      rw [h]
  | cons hd tl ih =>
      intro nd nd2 k h hk
      obtain ⟨k0, v0⟩ := hd
      rw [updLoop] at h
      obtain ⟨nd1, h1, h2⟩ := exceptBindOk h
      simp only [List.map_cons, List.mem_cons, not_or] at hk
      rw [ih h2 hk.2]
      exact updStep_ok_lookup_ne h1 hk.1

theorem updLoop_ok_new {self : Entries} {l : Entries} :
    ∀ {nd nd2 : Entries} {k : String} {v : Val}, updLoop self nd l = .ok nd2 →
      (l.map Prod.fst).Nodup → lookupE l k = some v →
      lookupE self k = Option.none → lookupE nd2 k = some v := by
  induction l with
  | nil =>
      intro nd nd2 k v _ _ hl _
      simp [lookupE] at hl
  | cons hd tl ih =>
      intro nd nd2 k v h hnod hl hself
      obtain ⟨k0, v0⟩ := hd
      rw [updLoop] at h
      obtain ⟨nd1, h1, h2⟩ := exceptBindOk h
      simp only [List.map_cons, List.nodup_cons] at hnod
      by_cases hk : k0 = k
      · subst hk
        simp [lookupE] at hl
        subst hl
        by_cases hattr : k0 ∈ configClassAttrs
        · rw [updStep_attr_missing hself hattr] at h1
          exact absurd h1 (by simp)
        · rw [updStep_no_attr hself hattr] at h1
          injection h1 with h1
          subst h1
          rw [updLoop_ok_unvisited h2 hnod.1]
          exact lookupE_setEntry_self _ _ _
      · simp only [lookupE, if_neg hk] at hl
        exact ih h2 hnod.2 hl hself

theorem updLoop_ok_choices {self : Entries} {l : Entries} :
    ∀ {nd nd2 : Entries} {k : String} {v : Val} {cs : List Val} {d : Val},
      updLoop self nd l = .ok nd2 → lookupE self k = some (.choices cs d) →
      (k, v) ∈ l → pyContains cs v = true := by
  induction l with
  | nil =>
      intro nd nd2 k v cs d _ _ hmem
      simp at hmem
  | cons hd tl ih =>
      intro nd nd2 k v cs d h hself hmem
      obtain ⟨k0, v0⟩ := hd
      rw [updLoop] at h
      obtain ⟨nd1, h1, h2⟩ := exceptBindOk h
      rcases List.mem_cons.mp hmem with heq | htl
      · injection heq with hk hv
        subst hk
        subst hv
        rw [updStep_choices hself] at h1
        by_cases hc : pyContains cs v = true
        · exact hc
        · rw [if_neg hc] at h1
          exact absurd h1 (by simp)
      · exact ih h2 hself htl

theorem updateConfig_ok_parts {self other merged : Entries}
    (h : updateConfig self other = .ok merged) :
    ∃ nd, updLoop self self other = .ok nd ∧
      updateComparables nd self = .ok merged := by
  rw [updateConfig] at h
  exact exceptBindOk h

theorem updCStepPlain_ok_shape {nd : Entries} {k : String} {v : Val}
    {nd1 : Entries} (h : updCStepPlain nd k v = .ok nd1) :
    nd1 = nd ∨ ∃ w, nd1 = setEntry nd k w := by
  rw [updCStepPlain] at h
  split at h
  · exact absurd h (by simp)
  · split at h
    · split at h
      · injection h with h
        exact Or.inr ⟨_, h.symm⟩
      · exact absurd h (by simp)
    · injection h with h
      exact Or.inl h.symm

theorem updCStep_ok_shape {nd : Entries} {k : String} {v : Val} {nd1 : Entries}
    (h : updCStep nd k v = .ok nd1) :
    nd1 = nd ∨ ∃ w, nd1 = setEntry nd k w := by
  cases v with
  | config ve =>
      rw [updCStep] at h
      split at h
      · obtain ⟨m, _, hm⟩ := exceptBindOk h
        simp only [pure, Except.pure, Except.ok.injEq] at hm
        exact Or.inr ⟨_, hm.symm⟩
      · exact absurd h (by simp)
      · exact absurd h (by simp)
  | int n => rw [updCStep] at h; exact updCStepPlain_ok_shape h
  | str s => rw [updCStep] at h; exact updCStepPlain_ok_shape h
  | bool b => rw [updCStep] at h; exact updCStepPlain_ok_shape h
  | none => rw [updCStep] at h; exact updCStepPlain_ok_shape h
  | required => rw [updCStep] at h; exact updCStepPlain_ok_shape h
  | choices cs d => rw [updCStep] at h; exact updCStepPlain_ok_shape h
  | condition d c => rw [updCStep] at h; exact updCStepPlain_ok_shape h
  | dict e => rw [updCStep] at h; exact updCStepPlain_ok_shape h

theorem updCStep_ok_lookup_ne {nd : Entries} {k : String} {v : Val}
    {nd1 : Entries} {k1 : String} (h : updCStep nd k v = .ok nd1)
    (hne : k1 ≠ k) : lookupE nd1 k1 = lookupE nd k1 := by
  rcases updCStep_ok_shape h with hc | ⟨w, hc⟩ <;> subst hc <;>
    simp [lookupE_setEntry_ne _ hne]

theorem updCStep_choices {nd : Entries} {k : String} {cur : Val}
    {cs : List Val} {d : Val} (hnd : lookupE nd k = some cur)
    (hcur : isComparable cur = true) :
    updCStep nd k (.choices cs d) = .ok (setEntry nd k d) := by
  rw [updCStep, updCStepPlain]
  simp [hnd, hcur, valData]

theorem updC_ok_unvisited {l : Entries} :
    ∀ {nd nd2 : Entries} {k : String}, updateComparables nd l = .ok nd2 →
      k ∉ l.map Prod.fst → lookupE nd2 k = lookupE nd k := by
  induction l with
  | nil =>
      intro nd nd2 k h _
      rw [updateComparables] at h
      injection h with h
      rw [h]
  | cons hd tl ih =>
      intro nd nd2 k h hk
      obtain ⟨k0, v0⟩ := hd
      rw [updateComparables] at h
      obtain ⟨nd1, h1, h2⟩ := exceptBindOk h
      simp only [List.map_cons, List.mem_cons, not_or] at hk
      rw [ih h2 hk.2]
      exact updCStep_ok_lookup_ne h1 hk.1

theorem updC_ok_choices_at {l : Entries} :
    ∀ {nd nd2 : Entries} {k : String} {cs : List Val} {d cur : Val},
      updateComparables nd l = .ok nd2 → (l.map Prod.fst).Nodup →
      lookupE l k = some (.choices cs d) → lookupE nd k = some cur →
      isComparable cur = true → lookupE nd2 k = some d := by
  induction l with
  | nil =>
      intro nd nd2 k cs d cur _ _ hl _ _
      simp [lookupE] at hl
  | cons hd tl ih =>
      intro nd nd2 k cs d cur h hnod hl hnd hcur
      obtain ⟨k0, v0⟩ := hd
      rw [updateComparables] at h
      obtain ⟨nd1, h1, h2⟩ := exceptBindOk h
      simp only [List.map_cons, List.nodup_cons] at hnod
      by_cases hk : k0 = k
      · subst hk
        simp [lookupE] at hl
        subst hl
        rw [updCStep_choices hnd hcur] at h1
        injection h1 with h1
        subst h1
        rw [updC_ok_unvisited h2 hnod.1]
        exact lookupE_setEntry_self _ _ _
      · simp only [lookupE, if_neg hk] at hl
        exact ih h2 hnod.2 hl
          ((updCStep_ok_lookup_ne h1 (fun he => hk he.symm)).trans hnd) hcur

/-! ## Concrete scenario data (mirroring the reference test suite) -/

/-- The `TestChoices` base declaration:
`variable1: Choices[int] = Choices([1, 2, 3])` and
`variable2: Choices[int] = Choices([1, 2, 3], default=1)`.  The type
objects in `__annotations__` are modeled as opaque string tags. -/
def c2BaseCls : ClsDef :=
  ⟨[("variable1", .choices [.int 1, .int 2, .int 3] .required),
    ("variable2", .choices [.int 1, .int 2, .int 3] (.int 1))],
   [("variable1", .str "ChoicesInt"), ("variable2", .str "ChoicesInt")]⟩

/-- The invalid override body `variable1 = 4` (no annotations). -/
def c2BadCls : ClsDef := ⟨[("variable1", .int 4)], []⟩

/-- The root tree produced by registering `c2BaseCls` under `"test"` on
an empty root.  A derived tree `Config(base)` copies exactly these
entries. -/
def c2Base : Entries :=
  [("_name", .none),
   ("test", .config
     [("_name", .str "test"),
      ("variable1", .choices [.int 1, .int 2, .int 3] .required),
      ("variable2", .choices [.int 1, .int 2, .int 3] (.int 1)),
      ("__annotations__", .dict
        [("variable1", .str "ChoicesInt"), ("variable2", .str "ChoicesInt")])])]

/-- The `"test"` section of `c2Base`. -/
def c2BaseTest : Entries :=
  [("_name", .str "test"),
   ("variable1", .choices [.int 1, .int 2, .int 3] .required),
   ("variable2", .choices [.int 1, .int 2, .int 3] (.int 1)),
   ("__annotations__", .dict
     [("variable1", .str "ChoicesInt"), ("variable2", .str "ChoicesInt")])]

/-! ## The claims -/

/-- Claim C1: in every successful `update_config` merge of a base node
with a delta node, (i) a key whose base value is a `Choices` placeholder
that the delta does not override ends up in the merged node as the
placeholder's own stored default (a plain value, not a live `Choices`),
because the `_update_comparables` reconciliation collapses it, while
(ii) a key introduced by the delta whose incoming value is an unresolved
`Choices` stays a live `Choices` placeholder in the merged node (the
reconciliation walks only the original node's keys). -/
theorem claim1_merge_collapses_untouched_choices
    (base delta merged : Entries)
    (hb : (base.map Prod.fst).Nodup) (hd : (delta.map Prod.fst).Nodup)
    (hok : updateConfig base delta = .ok merged) :
    (∀ k cs d, lookupE base k = some (.choices cs d) →
      lookupE delta k = Option.none → lookupE merged k = some d) ∧
    (∀ k cs, lookupE base k = Option.none →
      lookupE delta k = some (.choices cs .required) →
      lookupE merged k = some (.choices cs .required)) := by
  obtain ⟨nd, hloop, hcomp⟩ := updateConfig_ok_parts hok
  constructor
  · intro k cs d hbk hdk
    have h1 : lookupE nd k = lookupE base k :=
      updLoop_ok_unvisited hloop (not_mem_of_lookupE_none hdk)
    exact updC_ok_choices_at hcomp hb hbk (h1.trans hbk) rfl
  · intro k cs hbk hdk
    have h1 : lookupE nd k = some (.choices cs .required) :=
      updLoop_ok_new hloop hd hdk hbk
    exact (updC_ok_unvisited hcomp (not_mem_of_lookupE_none hbk)).trans h1

/-- Witness for C1 on the `test_update` scenario: a base declaring
`choice_variable: Choices([1,2,3], default=1)` (untouched) merged with a
delta declaring `variable = 2` and a new unresolved
`choice_variable2: Choices([1,2,3])`. -/
theorem claim1_witness :
    lookupE [("choice_variable", .int 1), ("variable", .int 2),
        ("choice_variable2", .choices [.int 1, .int 2, .int 3] .required)]
      "choice_variable" = some (.int 1) ∧
    lookupE [("choice_variable", .int 1), ("variable", .int 2),
        ("choice_variable2", .choices [.int 1, .int 2, .int 3] .required)]
      "choice_variable2"
      = some (.choices [.int 1, .int 2, .int 3] .required) := by
  have h := claim1_merge_collapses_untouched_choices
    [("choice_variable", .choices [.int 1, .int 2, .int 3] (.int 1))]
    [("variable", .int 2),
     ("choice_variable2", .choices [.int 1, .int 2, .int 3] .required)]
    [("choice_variable", .int 1), ("variable", .int 2),
     ("choice_variable2", .choices [.int 1, .int 2, .int 3] .required)]
    (by decide) (by decide) (by rfl)
  exact ⟨h.1 "choice_variable" [.int 1, .int 2, .int 3] (.int 1) rfl rfl,
         h.2 "choice_variable2" [.int 1, .int 2, .int 3] rfl rfl⟩

/-- Claim C2: (i) universally, whenever a base node declares a `Choices`
at a key and the incoming delta sets that key to a value outside the
declared choice set (by Python membership), `update_config` fails — it
can never return a merged node; (ii) on the reference scenario, the
override registration `variable1 = 4` on a tree derived from a base
declaring `variable1: Choices([1,2,3])` fails with `InvalidChoiceError`
naming the value, the field and the choice list.  The source raises
before the `self[name] = merged_config` commit, so the base tree is
untouched; in the pure embedding `addConfig` returns no new root, and
the derived tree's section still resolves `variable1` to its original
placeholder, restated by the final conjunct. -/
theorem claim2_invalid_override_rejected :
    (∀ (parent delta : Entries) (k : String) (cs : List Val) (d v : Val),
      lookupE parent k = some (.choices cs d) → lookupE delta k = some v →
      pyContains cs v = false →
      ∃ e, updateConfig parent delta = .error e) ∧
    (addConfig c2Base "test" c2BadCls true = .error (.invalidChoiceError
      "4 is not valid for variable1, valid choices: [1, 2, 3]") ∧
     lookupE c2BaseTest "variable1"
       = some (.choices [.int 1, .int 2, .int 3] .required)) := by
  constructor
  · intro parent delta k cs d v hpk hdk hcont
    cases hres : updateConfig parent delta with
    | error e => exact ⟨e, rfl⟩
    | ok m =>
        obtain ⟨nd, hloop, _⟩ := updateConfig_ok_parts hres
        have hc := updLoop_ok_choices hloop hpk (mem_of_lookupE_some hdk)
        rw [hcont] at hc
        exact absurd hc (by simp)
  · exact ⟨by rfl, rfl⟩

/-- Witness for C2's universal part: overriding
`v: Choices([1])` with `2` makes the merge fail. -/
theorem claim2_witness :
    ∃ e, updateConfig [("v", .choices [.int 1] .required)] [("v", .int 2)]
      = .error e :=
  claim2_invalid_override_rejected.1
    [("v", .choices [.int 1] .required)] [("v", .int 2)]
    "v" [.int 1] .required (.int 2) rfl rfl rfl

/-- The §8.5 base declaration:
`variable1: Choices[int] = Choices([1, 2, 3], default=3)` and
`conditional: Condition[Required[int]] = Condition(required, variable1 == 1)`.
The `variable1 == 1` comparison closes over the `Choices` object
(captured `data` 3) and its stamped field name. -/
def c3BaseCls : ClsDef :=
  ⟨[("variable1", .choices [.int 1, .int 2, .int 3] (.int 3)),
    ("conditional", .condition .required
      (.base "variable1" (.int 3) .eq (.int 1)))],
   [("variable1", .str "ChoicesInt"), ("conditional", .str "CondInt")]⟩

/-- The derived-tree override body `variable1 = 1; conditional = 2`. -/
def c3UserCls : ClsDef := ⟨[("variable1", .int 1), ("conditional", .int 2)], []⟩

/-- The `"test"` section of the §8.5 base tree. -/
def c3BaseTest : Entries :=
  [("_name", .str "test"),
   ("variable1", .choices [.int 1, .int 2, .int 3] (.int 3)),
   ("conditional", .condition .required
     (.base "variable1" (.int 3) .eq (.int 1))),
   ("__annotations__", .dict
     [("variable1", .str "ChoicesInt"), ("conditional", .str "CondInt")])]

/-- The base tree built from `c3BaseCls`. -/
def c3Base : Entries :=
  [("_name", .none), ("test", .config c3BaseTest)]

/-- The `"test"` section after the derived tree's override registration. -/
def c3DerivedTest : Entries :=
  [("_name", .str "test"),
   ("variable1", .int 1),
   ("conditional", .condition (.int 2)
     (.base "variable1" (.int 3) .eq (.int 1))),
   ("__annotations__", .dict
     [("variable1", .str "ChoicesInt"), ("conditional", .str "CondInt")])]

/-- Claim C3: with `variable1 = Choices([1,2,3], default=3)` and
`conditional = Condition(required, variable1 == 1)`, the derived tree
overriding `variable1 = 1` and `conditional = 2` flattens to a mapping
containing `conditional: 2`; the base tree (whose `variable1` resolves
to the default 3) flattens with no `conditional` key at all; and full
validation of the base tree raises nothing — in particular no
`RequiredError` for `conditional`, whose unresolved `required` payload
is never inspected because the predicate evaluates false. -/
theorem claim3_conditional_field :
    addConfig emptyRoot "test" c3BaseCls true = .ok c3Base ∧
    lookupE c3Base "test" = some (.config c3BaseTest) ∧
    addConfig c3Base "test" c3UserCls true
      = .ok [("_name", .none), ("test", .config c3DerivedTest)] ∧
    toDict false c3DerivedTest
      = .ok [("variable1", .int 1), ("conditional", .int 2)] ∧
    toDict false c3BaseTest = .ok [("variable1", .int 3)] ∧
    (toDict false c3BaseTest).map (fun d => lookupE d "conditional")
      = .ok Option.none ∧
    checkConfig c3Base = .ok () :=
  ⟨rfl, rfl, rfl, rfl, rfl, rfl, rfl⟩

/-- The `TestConfig` base declaration:
`variable: int = 1` and
`choice_variable: Choices[int] = Choices([1, 2, 3], default=1)`. -/
def c5BaseCls : ClsDef :=
  ⟨[("variable", .int 1),
    ("choice_variable", .choices [.int 1, .int 2, .int 3] (.int 1))],
   [("variable", .str "int"), ("choice_variable", .str "ChoicesInt")]⟩

/-- The derived-tree override body
`user_variable: int = 2; no_typing_variable = 1`. -/
def c5UserCls : ClsDef :=
  ⟨[("user_variable", .int 2), ("no_typing_variable", .int 1)],
   [("user_variable", .str "int")]⟩

/-- The base tree built from `c5BaseCls`. -/
def c5Base : Entries :=
  [("_name", .none),
   ("test", .config
     [("_name", .str "test"), ("variable", .int 1),
      ("choice_variable", .choices [.int 1, .int 2, .int 3] (.int 1)),
      ("__annotations__", .dict
        [("variable", .str "int"), ("choice_variable", .str "ChoicesInt")])])]

/-- The `"test"` section after registering `c5UserCls` on a tree derived
from `c5Base`. -/
def c5DerivedTest : Entries :=
  [("_name", .str "test"), ("variable", .int 1),
   ("choice_variable", .int 1),
   ("__annotations__", .dict
     [("variable", .str "int"), ("choice_variable", .str "ChoicesInt"),
      ("user_variable", .str "int")]),
   ("user_variable", .int 2)]

/-- Claim C5: in a derived-tree override registration, a field assigned
with no type annotation anywhere (`no_typing_variable = 1`) never
becomes an entry of the resulting section — attribute access fails with
NotFound (`AttributeError`) — while a field the override newly annotates
(`user_variable: int = 2`) is reachable and resolves to 2, and the
base's previously declared fields stay reachable with their values
(`variable` at 1; the untouched `choice_variable` resolves to its
default 1 after the merge's reconciliation). -/
theorem claim5_untyped_fields_inert :
    addConfig emptyRoot "test" c5BaseCls true = .ok c5Base ∧
    addConfig c5Base "test" c5UserCls true
      = .ok [("_name", .none), ("test", .config c5DerivedTest)] ∧
    getattrE c5DerivedTest "no_typing_variable"
      = .error (.attributeError "no_typing_variable") ∧
    getattrE c5DerivedTest "user_variable" = .ok (.int 2) ∧
    getattrE c5DerivedTest "variable" = .ok (.int 1) ∧
    getattrE c5DerivedTest "choice_variable" = .ok (.int 1) :=
  ⟨rfl, rfl, rfl, rfl, rfl, rfl⟩

/-- The override body `user_variable: int = 2; no_typing_variable = 1;
variable = 5` used to settle C4: `user_variable` is annotated only on
the child, `variable` only on the parent, `no_typing_variable` on
neither. -/
def c4UserCls : ClsDef :=
  ⟨[("user_variable", .int 2), ("no_typing_variable", .int 1),
    ("variable", .int 5)],
   [("user_variable", .str "int")]⟩

/-- The `"test"` section after registering `c4UserCls` on a tree derived
from `c5Base`. -/
def c4DerivedTest : Entries :=
  [("_name", .str "test"), ("variable", .int 5),
   ("choice_variable", .int 1),
   ("__annotations__", .dict
     [("variable", .str "int"), ("choice_variable", .str "ChoicesInt"),
      ("user_variable", .str "int")]),
   ("user_variable", .int 2)]

/-- Counterexample to claim C4 as stated: the parent section annotates
only `variable` and `choice_variable` and the child annotates only
`user_variable`, so the claimed intersection is empty and
`user_variable` would have to be dropped from the merged section's
validated field set — yet the code keeps it: the merged section carries
`user_variable` both as an annotation and as a reachable field with
value 2.  (`vars(config_class)` is filtered against the UNION of parent
and child annotations, not the intersection.) -/
theorem claim4_counterexample :
    addConfig c5Base "test" c4UserCls true
      = .ok [("_name", .none), ("test", .config c4DerivedTest)] ∧
    lookupE [("variable", .str "int"), ("choice_variable", .str "ChoicesInt")]
      "user_variable" = Option.none ∧
    lookupE [("variable", .str "int"), ("choice_variable", .str "ChoicesInt"),
        ("user_variable", .str "int")] "user_variable"
      = some (.str "int") ∧
    getattrE c4DerivedTest "user_variable" = .ok (.int 2) :=
  ⟨rfl, rfl, rfl, rfl⟩

/-- Claim C4 as amended: the transient override node keeps, in body
order, exactly the class members of the new definition that are
annotated on the existing parent section OR on the new definition; a
member annotated on neither is dropped.  On the `c4UserCls` scenario:
`no_typing_variable` (annotated nowhere) is absent from the merged
section, `user_variable` (child-annotated only) is kept with value 2,
and `variable` (parent-annotated, re-assigned without annotation by the
child) is kept with the override value 5. -/
theorem claim4_amended_union_filter :
    addConfig c5Base "test" c4UserCls true
      = .ok [("_name", .none), ("test", .config c4DerivedTest)] ∧
    lookupE c4DerivedTest "no_typing_variable" = Option.none ∧
    lookupE c4DerivedTest "user_variable" = some (.int 2) ∧
    lookupE c4DerivedTest "variable" = some (.int 5) ∧
    lookupE c4DerivedTest "__annotations__" = some (.dict
      [("variable", .str "int"), ("choice_variable", .str "ChoicesInt"),
       ("user_variable", .str "int")]) :=
  ⟨rfl, rfl, rfl, rfl, rfl⟩

/-- Claim C6: for all `Comparison` values `p`, `q` and every
configuration node, `(p & q)` evaluates to the conjunction of the two
evaluations, `(p | q)` to the disjunction and `~p` to the negation
(matching the `lambda config: self.comp(config) and other.comp(config)`
closures, which short-circuit exactly like the stated Boolean
operators).  The combinators are pure constructors: they build a new
deferred `Comparison` whose evaluation happens only when applied to a
concrete node, and `p` and `q` themselves are unchanged — the
conclusions evaluate the original `p` and `q` at the same node after
the combined values were built. -/
theorem claim6_comparison_combinators (p q : Comp) (cfg : Entries)
    (a b : Bool) (hp : p.eval cfg = .ok a) (hq : q.eval cfg = .ok b) :
    (Comp.and p q).eval cfg = .ok (a && b) ∧
    (Comp.or p q).eval cfg = .ok (a || b) ∧
    (Comp.not p).eval cfg = .ok (!a) := by
  refine ⟨?_, ?_, ?_⟩ <;> rw [Comp.eval] <;>
    simp only [hp, hq, Bind.bind, Except.bind] <;> cases a <;>
    simp [pure, Except.pure, hq]

/-- Witness for C6 at `p := (x == 1)`, `q := (y == 2)` over the node
`x = 1, y = 3`: `p` evaluates true, `q` false. -/
theorem claim6_witness :
    (Comp.and (.base "x" (.int 0) .eq (.int 1)) (.base "y" (.int 0) .eq (.int 2))).eval
      [("x", .int 1), ("y", .int 3)] = .ok (true && false) ∧
    (Comp.or (.base "x" (.int 0) .eq (.int 1)) (.base "y" (.int 0) .eq (.int 2))).eval
      [("x", .int 1), ("y", .int 3)] = .ok (true || false) ∧
    (Comp.not (.base "x" (.int 0) .eq (.int 1))).eval
      [("x", .int 1), ("y", .int 3)] = .ok (!true) :=
  claim6_comparison_combinators
    (.base "x" (.int 0) .eq (.int 1)) (.base "y" (.int 0) .eq (.int 2))
    [("x", .int 1), ("y", .int 3)] true false rfl rfl

/-- Claim C7: constructing `Choices(choices, default)` with a concrete
default (not the `required` sentinel) checks the default for membership
in the choice list at declaration time — before any configuration tree
exists: `mkChoices` involves no tree.  A non-member default fails with
`InvalidChoiceError('Default value is not in choices')`; a member
default succeeds and the instance's stored `data` is exactly that
default. -/
theorem claim7_choices_default_membership (cs : List Val) (d : Val)
    (hd : isRequired d = false) :
    (pyContains cs d = false → mkChoices cs d
       = .error (.invalidChoiceError "Default value is not in choices")) ∧
    (pyContains cs d = true → mkChoices cs d = .ok (.choices cs d)) := by
  constructor <;> intro hc <;> rw [mkChoices] <;> simp [hd, hc]

/-- Witness for C7: `Choices([1,2,3], default=4)` fails,
`Choices([1,2,3], default=1)` succeeds storing 1. -/
theorem claim7_witness :
    mkChoices [.int 1, .int 2, .int 3] (.int 4)
      = .error (.invalidChoiceError "Default value is not in choices") ∧
    mkChoices [.int 1, .int 2, .int 3] (.int 1)
      = .ok (.choices [.int 1, .int 2, .int 3] (.int 1)) :=
  ⟨(claim7_choices_default_membership [.int 1, .int 2, .int 3] (.int 4)
      rfl).1 rfl,
   (claim7_choices_default_membership [.int 1, .int 2, .int 3] (.int 1)
      rfl).2 rfl⟩

/-- The `config` tree of `src/config.py` as its decorators leave it
(field defaults evaluated at class-body time: `policy.b =
optimizer.a + 1 = 6`, `policy.another.c = policy.b + 1 = 7`). -/
def protoBase : Entries :=
  [("optimizer", .config
     [("a", .int 5),
      ("b", .dict [("a", .int 12), ("b", .int 5), ("c", .int 3)])]),
   ("policy", .config
     [("b", .int 6), ("e", .int 10), ("another", .config [("c", .int 7)])]),
   ("test", .config [("b", .int 6), ("e", .int 10)])]

/-- The `co` tree of `src/config.py` (`co.policy.another.c =
co.policy.b + 2 = 32`). -/
def protoCo : Entries :=
  [("optimizer", .config
     [("a", .int 5),
      ("b", .dict [("a", .int 15), ("c", .int 3), ("d", .int 45)])]),
   ("policy", .config
     [("b", .int 30), ("d", .str "a"), ("another", .config [("c", .int 32)])]),
   ("test", .config [("b", .int 30), ("d", .str "a")])]

/-- Claim C8, evaluated at the failing input: the file's own
`config.update(co)` call crashes.  At key `policy.d` — absent from the
base's policy section — the auto-vivifying lookup makes `hasattr` true,
so instead of copying the incoming scalar `'a'` as-is the code recurses
with `emptyNode.update('a')`, whose `other.items()` raises
`AttributeError` — the merged node the claim (and the file's later
`print(config.policy.d)`) expects is never produced.  The second
conjunct shows the claim's re-registration half behaving as stated:
registering an already-used section name fails, naming the clash. -/
theorem claim8_prototype_update_crash :
    protoUpdate protoBase (.config protoCo)
      = .error (.attributeError "items") ∧
    protoRegister protoBase "policy" [("b", .int 30), ("d", .str "a")]
      = .error (.attributeError "\x22policy\x22 is already registered") :=
  ⟨rfl, rfl⟩

/-- Claim C9: `read_config` with the file execution abstracted as the
produced namespace `ns`.  With no attribute name the whole module
namespace is returned; with a name present in the namespace exactly
that binding's value is returned; with an absent name the call fails
with the NotFound condition (`AttributeError`, from `getattr` on the
module). -/
theorem claim9_read_config (ns : Entries) :
    readConfig ns Option.none = .ok (.module ns) ∧
    (∀ n v, lookupE ns n = some v →
      readConfig ns (some n) = .ok (.attr v)) ∧
    (∀ n, lookupE ns n = Option.none →
      readConfig ns (some n) = .error (.attributeError n)) := by
  refine ⟨rfl, ?_, ?_⟩ <;> intro n
  · intro v h
    rw [readConfig, h]
  · intro h
    rw [readConfig, h]

/-- Witness for C9 on the namespace `x = 1`. -/
theorem claim9_witness :
    readConfig [("x", .int 1)] Option.none
      = .ok (.module [("x", .int 1)]) ∧
    readConfig [("x", .int 1)] (some "x") = .ok (.attr (.int 1)) ∧
    readConfig [("x", .int 1)] (some "y")
      = .error (.attributeError "y") :=
  ⟨(claim9_read_config [("x", .int 1)]).1,
   (claim9_read_config [("x", .int 1)]).2.1 "x" (.int 1) rfl,
   (claim9_read_config [("x", .int 1)]).2.2 "y" rfl⟩

/-- Claim C10: when `add_config` takes the fresh-registration branch
(the section name is absent from the node), the `check` flag is never
consulted and no validation runs: for any class body whose annotated
fields all carry well-formed defaults — including `required` sentinels,
unresolved `Choices` and unresolved `Condition` values — registration
returns the same successfully built section whether `check` is true or
false.  In particular the fresh branch can never raise `RequiredError`;
within the embedding, `RequiredError` originates only in `checkValue`,
which is reached only from the override branch of `addConfig` (when
`check` is set), from `getValueCheck` with `check = true`, from
`checkConfig`, or from `toDict` with `check = true`. -/
theorem claim10_fresh_registration_never_validates
    (root : Entries) (name : String) (cls : ClsDef) (fs : Entries)
    (hfresh : lookupE root name = Option.none)
    (hann : cls.annots ≠ [])
    (hfs : dataclassFields cls.annots cls.members = .ok fs) :
    addConfig root name cls true = addConfig root name cls false ∧
    addConfig root name cls true
      = .ok (setEntry root name (.config (buildNode name fs cls.annots))) := by
  have hfresh2 : addConfig root name cls true = freshAdd root name cls := by
    rw [addConfig, hfresh]
  have hfresh3 : addConfig root name cls false = freshAdd root name cls := by
    rw [addConfig, hfresh]
  have hres : freshAdd root name cls
      = .ok (setEntry root name (.config (buildNode name fs cls.annots))) := by
    rw [freshAdd]
    simp only [List.isEmpty_eq_true, hann, if_false, hfs, Bind.bind,
      Except.bind, pure, Except.pure]
  exact ⟨hfresh2.trans hfresh3.symm, hfresh2.trans hres⟩

/-- Witness for C10: freshly registering the `c2BaseCls` body — which
contains the unresolved `variable1: Choices([1,2,3])` whose data is the
`required` sentinel — succeeds on an empty root with `check = true`. -/
theorem claim10_witness :
    addConfig emptyRoot "test" c2BaseCls true
      = addConfig emptyRoot "test" c2BaseCls false ∧
    addConfig emptyRoot "test" c2BaseCls true
      = .ok (setEntry emptyRoot "test"
          (.config (buildNode "test"
            [("variable1", .choices [.int 1, .int 2, .int 3] .required),
             ("variable2", .choices [.int 1, .int 2, .int 3] (.int 1))]
            c2BaseCls.annots))) :=
  claim10_fresh_registration_never_validates emptyRoot "test" c2BaseCls
    [("variable1", .choices [.int 1, .int 2, .int 3] .required),
     ("variable2", .choices [.int 1, .int 2, .int 3] (.int 1))]
    rfl (by simp [c2BaseCls]) rfl

end Pipcs
